import Mathlib

/-!
Shallow embedding of the petstore-final-project adoption workflow.

The definitions below translate, function by function, the Go code of
`adoption-service` (domain model, Mongo repository, Redis cache usage,
NATS publisher, use case layer), of `notification-service` (event
handlers, NATS consumer shutdown).  External effects (Mongo, Redis,
NATS, SMTP) are modelled by an explicit environment `Env` that decides
the outcome of each external call, and by a trace of `Effect`s recording
every external interaction the code performs.  Time is modelled as a
natural number supplied by the environment (`Env.now` stands for
`time.Now().UTC()`), and generated Mongo object ids by `Env.genId`.
-/

namespace Petstore

/-- Status constants from `adoption-service/internal/domain` (Go `ApplicationStatus`
string constants). -/
def StatusAppUnspecified : String := "UNSPECIFIED"

def StatusAppPendingReview : String := "PENDING_REVIEW"

def StatusAppApproved : String := "APPROVED"

def StatusAppRejected : String := "REJECTED"

def StatusAppCancelledByUser : String := "CANCELLED_BY_USER"

/-- Go `domain.IsValidApplicationStatus`: the switch lists the four business
statuses and also the `UNSPECIFIED` sentinel as valid. -/
def IsValidApplicationStatus (status : String) : Bool :=
  status == StatusAppPendingReview || status == StatusAppApproved ||
  status == StatusAppRejected || status == StatusAppCancelledByUser ||
  status == StatusAppUnspecified

/-- Go `domain.AdoptionApplication`.  Timestamps are model time (Nat). -/
structure AdoptionApplication where
  id : String
  userID : String
  petID : String
  status : String
  applicationNotes : String
  reviewNotes : String
  createdAt : Nat
  updatedAt : Nat
deriving Repr, DecidableEq

/-- Go `(*AdoptionApplication).PrepareForCreate`: stamps both timestamps with
`now` and defaults the status to `PENDING_REVIEW` when it is empty or the
`UNSPECIFIED` sentinel. -/
def AdoptionApplication.PrepareForCreate (app : AdoptionApplication) (now : Nat) :
    AdoptionApplication :=
  let app := { app with createdAt := now, updatedAt := now }
  if app.status == "" || app.status == StatusAppUnspecified then
    { app with status := StatusAppPendingReview }
  else
    app

/-- JSON payload built by `natsAdoptionPublisher.PublishAdoptionApplicationCreated`
(map keys `event_type`, `application_id`, `user_id`, `pet_id`, `status`,
`applied_at`). -/
structure CreatedEventData where
  eventType : String
  applicationId : String
  userId : String
  petId : String
  status : String
  appliedAt : Nat
deriving Repr, DecidableEq

/-- JSON payload built by `natsAdoptionPublisher.PublishAdoptionApplicationStatusUpdated`
(map keys `event_type`, `application_id`, `user_id`, `pet_id`, `new_status`,
`updated_at`, `review_notes`). -/
structure StatusUpdatedEventData where
  eventType : String
  applicationId : String
  userId : String
  petId : String
  newStatus : String
  updatedAt : Nat
  reviewNotes : String
deriving Repr, DecidableEq

/-- The `eventData` map of `PublishAdoptionApplicationCreated`. -/
def createdEventData (app : AdoptionApplication) : CreatedEventData :=
  { eventType := "AdoptionApplicationCreated"
    applicationId := app.id
    userId := app.userID
    petId := app.petID
    status := app.status
    appliedAt := app.createdAt }

/-- The `eventData` map of `PublishAdoptionApplicationStatusUpdated`. -/
def statusUpdatedEventData (app : AdoptionApplication) : StatusUpdatedEventData :=
  { eventType := "AdoptionApplicationStatusUpdated"
    applicationId := app.id
    userId := app.userID
    petId := app.petID
    newStatus := app.status
    updatedAt := app.updatedAt
    reviewNotes := app.reviewNotes }

/-- One external interaction performed by the adoption service: a Mongo
insert/find/update, a Redis cache get/set/delete, or a NATS publish attempt
(with the serialized payload). -/
inductive Effect where
  | repoInsert (app : AdoptionApplication)
  | repoFindByID (id : String)
  | repoUpdateOne (id : String) (newStatus reviewNotes : String)
  | cacheGet (id : String)
  | cacheSet (id : String) (app : AdoptionApplication) (ttlSeconds : Nat)
  | cacheDelete (id : String)
  | publishCreated (payload : CreatedEventData)
  | publishStatusUpdated (payload : StatusUpdatedEventData)
deriving Repr, DecidableEq

/-- True exactly on the publish-attempt effects. -/
def Effect.isPublish : Effect → Bool
  | .publishCreated _ => true
  | .publishStatusUpdated _ => true
  | _ => false

/-- Outcome of `cache.GetAdoptionApplication` as seen by the use case:
a non-nil value with nil error (`hit`), a nil value with nil error
(`hitNil`, tolerated by the use case's `err == nil && cachedApp != nil`
check), the dedicated miss error `"adoption application not found in cache"`
(`missNotFound`), or any other cache error (`failure`). -/
inductive CacheGetOutcome where
  | hit (app : AdoptionApplication)
  | hitNil
  | missNotFound
  | failure (msg : String)
deriving Repr, DecidableEq

/-- Environment deciding the outcome of every external call made during one
use-case invocation: current time, the Mongo object id generated for an
insert, and the failure injected (if any) into each Mongo / Redis / NATS
operation. -/
structure Env where
  now : Nat
  genId : String
  insertError : Option String
  findDbError : Option String
  updateDbError : Option String
  cacheGet : CacheGetOutcome
  cacheSetError : Option String
  cacheDeleteError : Option String
  publishCreatedError : Option String
  publishStatusUpdatedError : Option String
deriving Repr, DecidableEq

/-- The Mongo `adoption_applications` collection: a list of documents keyed
by the `_id` field. -/
structure MongoRepo where
  docs : List AdoptionApplication
deriving Repr, DecidableEq

/-- First document of the list whose `_id` field equals `id`. -/
def findDoc (docs : List AdoptionApplication) (id : String) :
    Option AdoptionApplication :=
  match docs with
  | [] => none
  | d :: rest => if d.id == id then some d else findDoc rest id

/-- `FindOne(ctx, bson.M{"_id": id})`: first document whose id matches. -/
def MongoRepo.findByID (r : MongoRepo) (id : String) : Option AdoptionApplication :=
  findDoc r.docs id

/-- Equality of `Except` values is decidable when it is on both sides. -/
instance instDecEqExcept {α β : Type} [DecidableEq α] [DecidableEq β] :
    DecidableEq (Except α β) := fun
  | .error a, .error b => decidable_of_iff (a = b) (by simp)
  | .error _, .ok _ => .isFalse (by simp)
  | .ok _, .error _ => .isFalse (by simp)
  | .ok a, .ok b => decidable_of_iff (a = b) (by simp)

/-- Result of one repository / use-case call: the Go return value, the
repository state afterwards, and the trace of external interactions. -/
structure UCResult where
  res : Except String AdoptionApplication
  repo : MongoRepo
  trace : List Effect
deriving Repr, DecidableEq

/-- Go `mongoAdoptionRepository.CreateAdoptionApplication`: assign a fresh
object id when the incoming id is empty, call `PrepareForCreate`, then
`InsertOne` (whose failure is decided by `env.insertError`). -/
def mongoCreateAdoptionApplication (env : Env) (r : MongoRepo)
    (app : AdoptionApplication) : UCResult :=
  let app := if app.id == "" then { app with id := env.genId } else app
  let app := app.PrepareForCreate env.now
  match env.insertError with
  | some e => ⟨.error e, r, [Effect.repoInsert app]⟩
  | none => ⟨.ok app, ⟨r.docs ++ [app]⟩, [Effect.repoInsert app]⟩

/-- Go `mongoAdoptionRepository.GetAdoptionApplicationByID`: `FindOne` by id;
`mongo.ErrNoDocuments` becomes `"adoption application not found"`, any other
driver failure is decided by `env.findDbError`. -/
def mongoGetAdoptionApplicationByID (env : Env) (r : MongoRepo) (id : String) :
    UCResult :=
  match env.findDbError with
  | some e => ⟨.error e, r, [Effect.repoFindByID id]⟩
  | none =>
    match r.findByID id with
    | some app => ⟨.ok app, r, [Effect.repoFindByID id]⟩
    | none => ⟨.error "adoption application not found", r, [Effect.repoFindByID id]⟩

/-- The `$set` document of the repository status update applied to the first
document matching `id` (Mongo `UpdateOne` modifies at most one document):
sets `status`, `review_notes` (unconditionally) and `updated_at`, leaving
every other field of the document untouched. -/
def updateFirstByID (docs : List AdoptionApplication) (id : String)
    (newStatus reviewNotes : String) (now : Nat) : List AdoptionApplication :=
  match docs with
  | [] => []
  | d :: rest =>
    if d.id == id then
      { d with status := newStatus, reviewNotes := reviewNotes, updatedAt := now } :: rest
    else
      d :: updateFirstByID rest id newStatus reviewNotes now

/-- Go `mongoAdoptionRepository.UpdateAdoptionApplicationStatus`: guards on a
non-empty id and a valid status, performs `UpdateOne` (driver failure decided
by `env.updateDbError`), reports `"adoption application not found for status
update"` when `MatchedCount == 0`, and otherwise re-fetches and returns the
updated document. -/
def mongoUpdateAdoptionApplicationStatus (env : Env) (r : MongoRepo) (id : String)
    (newStatus reviewNotes : String) : UCResult :=
  if id == "" then
    ⟨.error "application ID cannot be empty for status update", r, []⟩
  else if ! IsValidApplicationStatus newStatus then
    ⟨.error "invalid new application status provided", r, []⟩
  else
    match env.updateDbError with
    | some e => ⟨.error e, r, [Effect.repoUpdateOne id newStatus reviewNotes]⟩
    | none =>
      match r.findByID id with
      | none =>
        ⟨.error "adoption application not found for status update", r,
          [Effect.repoUpdateOne id newStatus reviewNotes]⟩
      | some _ =>
        let r2 : MongoRepo := ⟨updateFirstByID r.docs id newStatus reviewNotes env.now⟩
        let g := mongoGetAdoptionApplicationByID env r2 id
        ⟨g.res, r2, Effect.repoUpdateOne id newStatus reviewNotes :: g.trace⟩

/-- Go `natsAdoptionPublisher.PublishAdoptionApplicationCreated`: builds the
event payload from the application, marshals it and performs one
`nc.Publish` attempt whose failure is decided by the environment. -/
def PublishAdoptionApplicationCreated (publishError : Option String)
    (app : AdoptionApplication) : Except String Unit × List Effect :=
  (match publishError with
    | some e => .error e
    | none => .ok (),
   [Effect.publishCreated (createdEventData app)])

/-- Go `natsAdoptionPublisher.PublishAdoptionApplicationStatusUpdated`:
one `nc.Publish` attempt with the status-updated payload. -/
def PublishAdoptionApplicationStatusUpdated (publishError : Option String)
    (app : AdoptionApplication) : Except String Unit × List Effect :=
  (match publishError with
    | some e => .error e
    | none => .ok (),
   [Effect.publishStatusUpdated (statusUpdatedEventData app)])

/-- Go `usecase.CreateAdoptionApplicationRequestData`. -/
structure CreateAdoptionApplicationRequestData where
  userID : String
  petID : String
  applicationNotes : String
deriving Repr, DecidableEq

/-- Go `usecase.UpdateAdoptionApplicationStatusRequestData`. -/
structure UpdateAdoptionApplicationStatusRequestData where
  newStatus : String
  reviewNotes : String
deriving Repr, DecidableEq

/-- Go `adoptionUsecase.CreateAdoptionApplication`: requires non-empty user
and pet ids, builds the entity with zero-value status and timestamps,
delegates to the repository, and on success performs one publish attempt
whose failure is only logged. -/
def CreateAdoptionApplication (env : Env) (r : MongoRepo)
    (reqData : CreateAdoptionApplicationRequestData) : UCResult :=
  if reqData.userID == "" || reqData.petID == "" then
    ⟨.error "user ID and pet ID are required", r, []⟩
  else
    let app : AdoptionApplication :=
      { id := ""
        userID := reqData.userID
        petID := reqData.petID
        status := ""
        applicationNotes := reqData.applicationNotes
        reviewNotes := ""
        createdAt := 0
        updatedAt := 0 }
    let c := mongoCreateAdoptionApplication env r app
    match c.res with
    | .error e =>
      ⟨.error ("could not create adoption application: " ++ e), c.repo, c.trace⟩
    | .ok createdApp =>
      let pub := PublishAdoptionApplicationCreated env.publishCreatedError createdApp
      ⟨.ok createdApp, c.repo, c.trace ++ pub.2⟩

/-- Go `adoptionUsecase.GetAdoptionApplicationByID`: try the cache first and
return a non-nil cached value directly; on miss or cache error fall through
to the repository; on repository success perform a best-effort cache set
with a 1-hour TTL (3600 seconds) whose failure is only logged. -/
def GetAdoptionApplicationByID (env : Env) (r : MongoRepo)
    (applicationID : String) : UCResult :=
  if applicationID == "" then
    ⟨.error "application ID is required", r, []⟩
  else
    match env.cacheGet with
    | .hit cachedApp => ⟨.ok cachedApp, r, [Effect.cacheGet applicationID]⟩
    | _ =>
      let g := mongoGetAdoptionApplicationByID env r applicationID
      match g.res with
      | .error e => ⟨.error e, r, Effect.cacheGet applicationID :: g.trace⟩
      | .ok app =>
        ⟨.ok app, r,
          Effect.cacheGet applicationID :: g.trace ++ [Effect.cacheSet applicationID app 3600]⟩

/-- Go `adoptionUsecase.UpdateAdoptionApplicationStatus`: requires a
non-empty id and a status accepted by `IsValidApplicationStatus`, delegates
to the repository, then deletes the cache entry (failure only logged) and
performs one publish attempt (failure only logged). -/
def UpdateAdoptionApplicationStatus (env : Env) (r : MongoRepo)
    (applicationID : String) (reqData : UpdateAdoptionApplicationStatusRequestData) :
    UCResult :=
  if applicationID == "" then
    ⟨.error "application ID is required for status update", r, []⟩
  else if ! IsValidApplicationStatus reqData.newStatus then
    ⟨.error "invalid new application status", r, []⟩
  else
    let u := mongoUpdateAdoptionApplicationStatus env r applicationID
      reqData.newStatus reqData.reviewNotes
    match u.res with
    | .error e =>
      ⟨.error ("could not update application status: " ++ e), u.repo, u.trace⟩
    | .ok updatedApp =>
      let pub := PublishAdoptionApplicationStatusUpdated
        env.publishStatusUpdatedError updatedApp
      ⟨.ok updatedApp, u.repo,
        u.trace ++ [Effect.cacheDelete applicationID] ++ pub.2⟩

/-! ### Notification service (`notification-service/internal/service`) -/

/-- The fields of the protobuf `User` message that
`NotificationService` reads (`GetEmail`, `GetFullName`). -/
structure PbUser where
  email : String
  fullName : String
deriving Repr, DecidableEq

/-- The field of the protobuf `Pet` message that `NotificationService`
reads (`GetName`). -/
structure PbPet where
  name : String
deriving Repr, DecidableEq

/-- Outcome of a `GetUserDetails` / `GetPetDetails` RPC as seen by the
handler: a non-nil message with nil error (`ok`), a nil message with nil
error (`okNil`), or an RPC error (`fail`). -/
inductive FetchOutcome (α : Type) where
  | ok (val : α)
  | okNil
  | fail (msg : String)
deriving Repr, DecidableEq

/-- One `SendEmail(to, subject, body, isHtml)` attempt. -/
structure EmailSend where
  recipients : List String
  subject : String
  body : String
  isHtml : Bool
deriving Repr, DecidableEq

/-- Environment deciding the outcome of the two enrichment RPCs and of the
SMTP send during one event-handler invocation. -/
structure NotifEnv where
  userFetch : FetchOutcome PbUser
  petFetch : FetchOutcome PbPet
  sendError : Option String
deriving Repr, DecidableEq

/-- Go `consumer.AdoptionApplicationCreatedEvent`. -/
structure AdoptionApplicationCreatedEvent where
  eventType : String
  applicationID : String
  userID : String
  petID : String
  status : String
  appliedAt : Nat
deriving Repr, DecidableEq

/-- Go `consumer.AdoptionApplicationStatusUpdatedEvent`. -/
structure AdoptionApplicationStatusUpdatedEvent where
  eventType : String
  applicationID : String
  userID : String
  petID : String
  newStatus : String
  updatedAt : Nat
  reviewNotes : String
deriving Repr, DecidableEq

/-- An ASCII apostrophe, kept out of string literals. -/
def apos : String := String.singleton (Char.ofNat 39)

/-- Body of the application-created email
(`HandleAdoptionApplicationCreated`, `fmt.Sprintf` over the raw template). -/
def createdEmailBody (fullName applicationID petName petID status : String) :
    String :=
  "\n\t\t<h1>Adoption Application Received!</h1>\n\t\t<p>Dear " ++ fullName ++
  ",</p>\n\t\t<p>Thank you for submitting your adoption application (ID: " ++
  applicationID ++ ") for <strong>" ++ petName ++ "</strong> (Pet ID: " ++
  petID ++ ").</p>\n\t\t<p>Your application is currently in status: <strong>" ++
  status ++ "</strong>.</p>\n\t\t<p>We will review your application and get " ++
  "back to you soon.</p>\n\t\t<p>Thank you,<br/>The PetStore Team</p>\n\t"

/-- Body of the status-updated email
(`HandleAdoptionApplicationStatusUpdated`): base template, then the
reviewer-notes paragraph when notes are present, then status-specific copy
for `APPROVED` / `REJECTED`, then the closing line. -/
def statusUpdatedEmailBody (fullName applicationID petName petID newStatus
    reviewNotes : String) : String :=
  let body :=
    "\n\t\t<h1>Adoption Application Status Update!</h1>\n\t\t<p>Dear " ++
    fullName ++ ",</p>\n\t\t<p>There" ++ apos ++
    "s an update on your adoption application (ID: " ++ applicationID ++
    ") for <strong>" ++ petName ++ "</strong> (Pet ID: " ++ petID ++
    ").</p>\n\t\t<p>Your application status is now: <strong>" ++ newStatus ++
    "</strong>.</p>\n\t"
  let body := if reviewNotes != "" then
      body ++ "<p>Reviewer" ++ apos ++ "s Notes: " ++ reviewNotes ++ "</p>"
    else body
  let body := if newStatus == "APPROVED" then
      body ++ "<p>Congratulations! Your application has been approved. " ++
        "We will contact you shortly with the next steps.</p>"
    else if newStatus == "REJECTED" then
      body ++ "<p>We regret to inform you that your application was not " ++
        "approved at this time. Thank you for your interest.</p>"
    else body
  body ++ "<p>Thank you,<br/>The PetStore Team</p>"

/-- Go `NotificationService.HandleAdoptionApplicationCreated`: fetch the
user (error or nil/empty email aborts), fetch the pet (error or nil/empty
name aborts), then send exactly one email to the fetched user's address.
Returns the handler's error and the list of send attempts. -/
def HandleAdoptionApplicationCreated (env : NotifEnv)
    (event : AdoptionApplicationCreatedEvent) :
    Except String Unit × List EmailSend :=
  match env.userFetch with
  | .fail e =>
    (.error ("failed to fetch user details for created application: " ++ e), [])
  | .okNil =>
    (.error ("user email not found for UserID " ++ event.userID), [])
  | .ok userDetails =>
    if userDetails.email == "" then
      (.error ("user email not found for UserID " ++ event.userID), [])
    else
      match env.petFetch with
      | .fail e =>
        (.error ("failed to fetch pet details for created application: " ++ e), [])
      | .okNil =>
        (.error ("pet details not found or name is empty for PetID " ++ event.petID), [])
      | .ok petDetails =>
        if petDetails.name == "" then
          (.error ("pet details not found or name is empty for PetID " ++ event.petID), [])
        else
          let recipientEmail := userDetails.email
          let send : EmailSend :=
            { recipients := [recipientEmail]
              subject := "Adoption Application Received for " ++ petDetails.name ++
                " (ID: " ++ event.applicationID ++ ")"
              body := createdEmailBody userDetails.fullName event.applicationID
                petDetails.name event.petID event.status
              isHtml := true }
          match env.sendError with
          | some e =>
            (.error ("failed to send application created email: " ++ e), [send])
          | none => (.ok (), [send])

/-- Go `NotificationService.HandleAdoptionApplicationStatusUpdated`: same
enrichment guards as the created handler, then exactly one email to the
fetched user's address with the status-dependent body. -/
def HandleAdoptionApplicationStatusUpdated (env : NotifEnv)
    (event : AdoptionApplicationStatusUpdatedEvent) :
    Except String Unit × List EmailSend :=
  match env.userFetch with
  | .fail e =>
    (.error ("failed to fetch user details for status update: " ++ e), [])
  | .okNil =>
    (.error ("user email not found for UserID " ++ event.userID), [])
  | .ok userDetails =>
    if userDetails.email == "" then
      (.error ("user email not found for UserID " ++ event.userID), [])
    else
      match env.petFetch with
      | .fail e =>
        (.error ("failed to fetch pet details for status update: " ++ e), [])
      | .okNil =>
        (.error ("pet details not found or name is empty for PetID " ++ event.petID), [])
      | .ok petDetails =>
        if petDetails.name == "" then
          (.error ("pet details not found or name is empty for PetID " ++ event.petID), [])
        else
          let recipientEmail := userDetails.email
          let send : EmailSend :=
            { recipients := [recipientEmail]
              subject := "Update on Your Adoption Application for " ++
                petDetails.name ++ " (ID: " ++ event.applicationID ++ ")"
              body := statusUpdatedEmailBody userDetails.fullName
                event.applicationID petDetails.name event.petID
                event.newStatus event.reviewNotes
              isHtml := true }
          match env.sendError with
          | some e =>
            (.error ("failed to send status update email: " ++ e), [send])
          | none => (.ok (), [send])

/-- Both enrichment fetches succeeded with their required field non-empty
(the conjunction of the guards of the two handlers). -/
def enrichmentOk (env : NotifEnv) : Bool :=
  (match env.userFetch with
    | .ok u => u.email != ""
    | _ => false) &&
  (match env.petFetch with
    | .ok p => p.name != ""
    | _ => false)

/-! ### NATS consumer shutdown (`notification-service/internal/consumer`) -/

/-- One step of `NATSConsumer.Close`, in program order: closing `stopChan`,
one `sub.Unsubscribe()` per subscription, `nc.Drain()` (which closes the
connection), and the bounded wait on the handler `WaitGroup`. -/
inductive CloseAction where
  | signalStop
  | unsubscribe (subject : String)
  | drainConnection
  | waitForHandlers (timeoutSeconds : Nat)
deriving Repr, DecidableEq, BEq

/-- The subjects `NATSConsumer.StartSubscribers` subscribes to, in order. -/
def consumerSubjects : List String :=
  ["adoption.application.created", "adoption.application.status.updated"]

/-- Go `NATSConsumer.Close` as the sequence of shutdown steps it performs:
close `stopChan`, unsubscribe from every subscription, drain (and thereby
close) the NATS connection when it is still open, and finally wait — bounded
by a 10-second timeout — for in-flight message handlers to finish. -/
def NATSConsumerClose (subjects : List String) (connOpen : Bool) :
    List CloseAction :=
  [CloseAction.signalStop] ++ subjects.map CloseAction.unsubscribe ++
  (if connOpen then [CloseAction.drainConnection] else []) ++
  [CloseAction.waitForHandlers 10]

/-- Index of the first occurrence of `a` in `acts` (length when absent). -/
def firstIndexOf (acts : List CloseAction) (a : CloseAction) : Nat :=
  match acts with
  | [] => 0
  | b :: rest => if b == a then 0 else firstIndexOf rest a + 1

/-! ### Concrete fixtures used to instantiate the theorems -/

/-- A fault-free adoption-service environment: model time 7, generated
object id `app1`, a cache miss, and no injected failures. -/
def envOk : Env :=
  { now := 7
    genId := "app1"
    insertError := none
    findDbError := none
    updateDbError := none
    cacheGet := .missNotFound
    cacheSetError := none
    cacheDeleteError := none
    publishCreatedError := none
    publishStatusUpdatedError := none }

/-- A stored application with non-empty review notes. -/
def appStored : AdoptionApplication :=
  { id := "app1"
    userID := "user123"
    petID := "pet456"
    status := "PENDING_REVIEW"
    applicationNotes := "please"
    reviewNotes := "old notes"
    createdAt := 1
    updatedAt := 1 }

/-- An empty collection. -/
def repo0 : MongoRepo := ⟨[]⟩

/-- A collection holding exactly `appStored`. -/
def repo1 : MongoRepo := ⟨[appStored]⟩

/-- The create request of the repository test scenario. -/
def reqCreate0 : CreateAdoptionApplicationRequestData :=
  { userID := "user123", petID := "pet456", applicationNotes := "please" }

/-- The application `CreateAdoptionApplication envOk repo0 reqCreate0`
produces. -/
def appCreated0 : AdoptionApplication :=
  { id := "app1"
    userID := "user123"
    petID := "pet456"
    status := "PENDING_REVIEW"
    applicationNotes := "please"
    reviewNotes := ""
    createdAt := 7
    updatedAt := 7 }

/-- `envOk` with a cache hit on `appStored`. -/
def envHit : Env := { envOk with cacheGet := .hit appStored }

/-- `envOk` with both NATS publishes failing. -/
def envPubFail : Env :=
  { envOk with
    publishCreatedError := some "nats: connection closed"
    publishStatusUpdatedError := some "nats: connection closed" }

/-- A notification environment where both enrichment RPCs succeed with
non-empty required fields and the SMTP send succeeds. -/
def notifEnvOk : NotifEnv :=
  { userFetch := .ok { email := "alice@example.com", fullName := "Alice" }
    petFetch := .ok { name := "Rex" }
    sendError := none }

/-- A created event fixture. -/
def eventCreated0 : AdoptionApplicationCreatedEvent :=
  { eventType := "AdoptionApplicationCreated"
    applicationID := "app1"
    userID := "user123"
    petID := "pet456"
    status := "PENDING_REVIEW"
    appliedAt := 7 }

/-- A status-updated event fixture. -/
def eventUpdated0 : AdoptionApplicationStatusUpdatedEvent :=
  { eventType := "AdoptionApplicationStatusUpdated"
    applicationID := "app1"
    userID := "user123"
    petID := "pet456"
    newStatus := "APPROVED"
    updatedAt := 7
    reviewNotes := "looks good" }


/-- True exactly when the handler returned a Go error. -/
def exceptIsError : Except String Unit → Bool
  | .error _ => true
  | .ok _ => false

/-- The document a fault-free `CreateAdoptionApplication` inserts and
returns: generated id, requested ids and notes, defaulted status, both
timestamps stamped with `env.now`. -/
def createdOf (env : Env) (reqData : CreateAdoptionApplicationRequestData) :
    AdoptionApplication :=
  { id := env.genId
    userID := reqData.userID
    petID := reqData.petID
    status := StatusAppPendingReview
    applicationNotes := reqData.applicationNotes
    reviewNotes := ""
    createdAt := env.now
    updatedAt := env.now }

/-- The document after the repository status update of `d`: status, review
notes and `updated_at` written, every other field as stored. -/
def updatedOf (env : Env) (reqData : UpdateAdoptionApplicationStatusRequestData)
    (d : AdoptionApplication) : AdoptionApplication :=
  { d with
    status := reqData.newStatus
    reviewNotes := reqData.reviewNotes
    updatedAt := env.now }

/-! ### Helper lemmas -/

/-- Updating the first matching document moves `findDoc` to the updated
document. -/
theorem findDoc_updateFirstByID (docs : List AdoptionApplication)
    (id ns rn : String) (now : Nat) (d : AdoptionApplication)
    (h : findDoc docs id = some d) :
    findDoc (updateFirstByID docs id ns rn now) id =
      some { d with status := ns, reviewNotes := rn, updatedAt := now } := by
  induction docs with
  | nil => simp [findDoc] at h
  | cons a rest ih =>
    by_cases ha : (a.id == id) = true
    · simp [findDoc, ha] at h
      subst h
      simp [updateFirstByID, findDoc, ha]
    · simp [findDoc, ha] at h
      simp [updateFirstByID, findDoc, ha]
      exact ih h

/-- Characterization of a fault-free use-case create. -/
theorem create_ok_eq (env : Env) (r : MongoRepo)
    (reqData : CreateAdoptionApplicationRequestData)
    (hu : reqData.userID ≠ "") (hp : reqData.petID ≠ "")
    (hins : env.insertError = none) :
    CreateAdoptionApplication env r reqData =
      ⟨.ok (createdOf env reqData), ⟨r.docs ++ [createdOf env reqData]⟩,
        [Effect.repoInsert (createdOf env reqData),
         Effect.publishCreated (createdEventData (createdOf env reqData))]⟩ := by
  simp [CreateAdoptionApplication, hu, hp, mongoCreateAdoptionApplication, hins,
    AdoptionApplication.PrepareForCreate, PublishAdoptionApplicationCreated,
    createdOf]

/-- Characterization of a fault-free use-case status update on a matching
document. -/
theorem update_ok_eq (env : Env) (r : MongoRepo) (applicationID : String)
    (reqData : UpdateAdoptionApplicationStatusRequestData)
    (d : AdoptionApplication)
    (hid : applicationID ≠ "")
    (hval : IsValidApplicationStatus reqData.newStatus = true)
    (hdb : env.updateDbError = none)
    (hfdb : env.findDbError = none)
    (hfind : r.findByID applicationID = some d) :
    UpdateAdoptionApplicationStatus env r applicationID reqData =
      ⟨.ok (updatedOf env reqData d),
        ⟨updateFirstByID r.docs applicationID reqData.newStatus
          reqData.reviewNotes env.now⟩,
        [Effect.repoUpdateOne applicationID reqData.newStatus reqData.reviewNotes,
         Effect.repoFindByID applicationID,
         Effect.cacheDelete applicationID,
         Effect.publishStatusUpdated (statusUpdatedEventData (updatedOf env reqData d))]⟩ := by
  have hfind2 : MongoRepo.findByID
      ⟨updateFirstByID r.docs applicationID reqData.newStatus
        reqData.reviewNotes env.now⟩ applicationID =
      some (updatedOf env reqData d) := by
    simpa [MongoRepo.findByID, updatedOf] using
      findDoc_updateFirstByID r.docs applicationID reqData.newStatus
        reqData.reviewNotes env.now d (by simpa [MongoRepo.findByID] using hfind)
  simp [UpdateAdoptionApplicationStatus, hid, hval,
    mongoUpdateAdoptionApplicationStatus, hdb, hfind,
    mongoGetAdoptionApplicationByID, hfdb, hfind2,
    PublishAdoptionApplicationStatusUpdated]

/-! ### Claim theorems -/

/-- C1: every successful `CreateAdoptionApplication` and every successful
`UpdateAdoptionApplicationStatus` performs exactly one publish attempt
(`PublishAdoptionApplicationCreated` resp.
`PublishAdoptionApplicationStatusUpdated`), and the serialized payload's
`application_id` field equals the mutated application's id — whatever the
outcome of the publish itself. -/
theorem create_update_publish_exactly_once :
    (∀ env r reqData app,
        (CreateAdoptionApplication env r reqData).res = .ok app →
        (CreateAdoptionApplication env r reqData).trace.filter Effect.isPublish =
          [Effect.publishCreated (createdEventData app)] ∧
        (createdEventData app).applicationId = app.id) ∧
    (∀ env r applicationID reqData app,
        (UpdateAdoptionApplicationStatus env r applicationID reqData).res = .ok app →
        (UpdateAdoptionApplicationStatus env r applicationID reqData).trace.filter
          Effect.isPublish =
          [Effect.publishStatusUpdated (statusUpdatedEventData app)] ∧
        (statusUpdatedEventData app).applicationId = app.id) := by
  constructor
  · intro env r reqData app h
    by_cases hu : reqData.userID = ""
    · simp [CreateAdoptionApplication, hu] at h
    · by_cases hp : reqData.petID = ""
      · simp [CreateAdoptionApplication, hp] at h
      · cases hins : env.insertError with
        | some e =>
          simp [CreateAdoptionApplication, hu, hp,
            mongoCreateAdoptionApplication, hins] at h
        | none =>
          rw [create_ok_eq env r reqData hu hp hins] at h ⊢
          simp at h
          subst h
          simp [Effect.isPublish, createdEventData]
  · intro env r applicationID reqData app h
    by_cases hid : applicationID = ""
    · simp [UpdateAdoptionApplicationStatus, hid] at h
    · by_cases hval : IsValidApplicationStatus reqData.newStatus = true
      · cases hdb : env.updateDbError with
        | some e =>
          simp [UpdateAdoptionApplicationStatus, hid, hval,
            mongoUpdateAdoptionApplicationStatus, hdb] at h
        | none =>
          cases hfind : r.findByID applicationID with
          | none =>
            simp [UpdateAdoptionApplicationStatus, hid, hval,
              mongoUpdateAdoptionApplicationStatus, hdb, hfind] at h
          | some d =>
            cases hfdb : env.findDbError with
            | some e =>
              simp [UpdateAdoptionApplicationStatus, hid, hval,
                mongoUpdateAdoptionApplicationStatus, hdb, hfind,
                mongoGetAdoptionApplicationByID, hfdb] at h
            | none =>
              rw [update_ok_eq env r applicationID reqData d hid hval hdb hfdb hfind] at h ⊢
              simp at h
              subst h
              simp [Effect.isPublish, statusUpdatedEventData]
      · simp [UpdateAdoptionApplicationStatus, hid, hval] at h

/-- C1 witness: the fault-free create scenario performs exactly the one
publish attempt carrying the created application's id. -/
theorem create_update_publish_exactly_once_witness :
    (CreateAdoptionApplication envOk repo0 reqCreate0).trace.filter Effect.isPublish =
      [Effect.publishCreated (createdEventData appCreated0)] ∧
    (createdEventData appCreated0).applicationId = appCreated0.id :=
  create_update_publish_exactly_once.1 envOk repo0 reqCreate0 appCreated0 (by decide)

/-- C4: a successful create from a request with non-empty user and pet ids
yields an application in `PENDING_REVIEW` status whose creation and update
timestamps coincide. -/
theorem create_initial_status_and_timestamps :
    ∀ env r reqData app,
      reqData.userID ≠ "" → reqData.petID ≠ "" →
      (CreateAdoptionApplication env r reqData).res = .ok app →
      app.status = StatusAppPendingReview ∧ app.createdAt = app.updatedAt := by
  intro env r reqData app hu hp h
  cases hins : env.insertError with
  | some e =>
    simp [CreateAdoptionApplication, hu, hp,
      mongoCreateAdoptionApplication, hins] at h
  | none =>
    rw [create_ok_eq env r reqData hu hp hins] at h
    simp at h
    subst h
    simp [createdOf]

/-- C4 witness: the fault-free create scenario returns `appCreated0`, which
is pending review with equal timestamps. -/
theorem create_initial_status_and_timestamps_witness :
    appCreated0.status = StatusAppPendingReview ∧
    appCreated0.createdAt = appCreated0.updatedAt :=
  create_initial_status_and_timestamps envOk repo0 reqCreate0 appCreated0
    (by decide) (by decide) (by decide)

/-- C7: when the store write succeeds, a failing publish does not fail the
mutation — both `CreateAdoptionApplication` and
`UpdateAdoptionApplicationStatus` still return the mutated application with
no error. -/
theorem mutation_success_despite_publish_failure :
    (∀ env r reqData e,
        env.insertError = none →
        env.publishCreatedError = some e →
        reqData.userID ≠ "" → reqData.petID ≠ "" →
        (CreateAdoptionApplication env r reqData).res = .ok (createdOf env reqData)) ∧
    (∀ env r applicationID reqData d e,
        env.updateDbError = none →
        env.findDbError = none →
        env.publishStatusUpdatedError = some e →
        applicationID ≠ "" →
        IsValidApplicationStatus reqData.newStatus = true →
        r.findByID applicationID = some d →
        (UpdateAdoptionApplicationStatus env r applicationID reqData).res =
          .ok (updatedOf env reqData d)) := by
  constructor
  · intro env r reqData e hins _hpub hu hp
    rw [create_ok_eq env r reqData hu hp hins]
  · intro env r applicationID reqData d e hdb hfdb _hpub hid hval hfind
    rw [update_ok_eq env r applicationID reqData d hid hval hdb hfdb hfind]

/-- C7 witness: with both publishes failing, the create still succeeds. -/
theorem mutation_success_despite_publish_failure_witness :
    (CreateAdoptionApplication envPubFail repo0 reqCreate0).res =
      .ok (createdOf envPubFail reqCreate0) :=
  mutation_success_despite_publish_failure.1 envPubFail repo0 reqCreate0
    "nats: connection closed" rfl rfl (by decide) (by decide)

/-- C10: `PrepareForCreate` defaults the status to `PENDING_REVIEW` exactly
when the incoming status is empty or `UNSPECIFIED`; consequently the
repository create persists any other caller-supplied status (for example
`APPROVED`) unchanged. -/
theorem repo_create_preserves_caller_status :
    (∀ (app : AdoptionApplication) (now : Nat),
        (app.PrepareForCreate now).status =
          if app.status == "" || app.status == StatusAppUnspecified then
            StatusAppPendingReview
          else app.status) ∧
    (∀ env r (app : AdoptionApplication),
        app.status ≠ "" → app.status ≠ StatusAppUnspecified →
        env.insertError = none →
        ∃ stored,
          (mongoCreateAdoptionApplication env r app).res = .ok stored ∧
          stored.status = app.status ∧
          (mongoCreateAdoptionApplication env r app).repo.docs = r.docs ++ [stored]) := by
  constructor
  · intro app now
    by_cases h : (app.status == "" || app.status == StatusAppUnspecified) = true
    · simp [AdoptionApplication.PrepareForCreate, h]
    · simp only [Bool.not_eq_true] at h
      simp [AdoptionApplication.PrepareForCreate, h]
  · intro env r app hs hu hins
    refine ⟨(if app.id == "" then { app with id := env.genId } else app).PrepareForCreate
      env.now, ?_, ?_, ?_⟩
    · simp [mongoCreateAdoptionApplication, hins]
    · by_cases hid : (app.id == "") = true
      · simp [hid, AdoptionApplication.PrepareForCreate, hs, hu]
      · simp [hid, AdoptionApplication.PrepareForCreate, hs, hu]
    · simp [mongoCreateAdoptionApplication, hins]

/-- C10 witness: an application handed to the repository with status
`APPROVED` is persisted with status `APPROVED`. -/
theorem repo_create_preserves_caller_status_witness :
    ∃ stored,
      (mongoCreateAdoptionApplication envOk repo0
          { appStored with id := "", status := "APPROVED" }).res = .ok stored ∧
      stored.status = ({ appStored with id := "", status := "APPROVED" } :
        AdoptionApplication).status ∧
      (mongoCreateAdoptionApplication envOk repo0
          { appStored with id := "", status := "APPROVED" }).repo.docs =
        repo0.docs ++ [stored] :=
  repo_create_preserves_caller_status.2 envOk repo0
    { appStored with id := "", status := "APPROVED" }
    (by decide) (by decide) rfl

/-- C2: `GetAdoptionApplicationByID` returns a cached value with no
repository access on a cache hit; on a miss or a cache error it reads the
repository and, on repository success, performs a best-effort cache set
with a 3600-second (1-hour) TTL and returns the repository value; the
outcome never depends on whether that cache set failed. -/
theorem get_cache_aside :
    (∀ env r applicationID cachedApp,
        applicationID ≠ "" →
        env.cacheGet = .hit cachedApp →
        (GetAdoptionApplicationByID env r applicationID).res = .ok cachedApp ∧
        (GetAdoptionApplicationByID env r applicationID).trace =
          [Effect.cacheGet applicationID]) ∧
    (∀ env r applicationID,
        applicationID ≠ "" →
        (∀ a, env.cacheGet ≠ .hit a) →
        env.findDbError = none →
        (∀ d, r.findByID applicationID = some d →
            (GetAdoptionApplicationByID env r applicationID).res = .ok d ∧
            (GetAdoptionApplicationByID env r applicationID).trace =
              [Effect.cacheGet applicationID, Effect.repoFindByID applicationID,
               Effect.cacheSet applicationID d 3600]) ∧
        (r.findByID applicationID = none →
            (GetAdoptionApplicationByID env r applicationID).res =
              .error "adoption application not found")) ∧
    (∀ (env : Env) r applicationID e,
        GetAdoptionApplicationByID { env with cacheSetError := e } r applicationID =
          GetAdoptionApplicationByID { env with cacheSetError := none } r applicationID) := by
  refine ⟨?_, ?_, ?_⟩
  · intro env r applicationID cachedApp hid hhit
    constructor <;> simp [GetAdoptionApplicationByID, hid, hhit]
  · intro env r applicationID hid hmiss hfdb
    constructor
    · intro d hfind
      cases hcg : env.cacheGet with
      | hit a => exact absurd hcg (hmiss a)
      | hitNil =>
        constructor <;>
          simp [GetAdoptionApplicationByID, hid, hcg,
            mongoGetAdoptionApplicationByID, hfdb, hfind]
      | missNotFound =>
        constructor <;>
          simp [GetAdoptionApplicationByID, hid, hcg,
            mongoGetAdoptionApplicationByID, hfdb, hfind]
      | failure msg =>
        constructor <;>
          simp [GetAdoptionApplicationByID, hid, hcg,
            mongoGetAdoptionApplicationByID, hfdb, hfind]
    · intro hfind
      cases hcg : env.cacheGet with
      | hit a => exact absurd hcg (hmiss a)
      | hitNil =>
        simp [GetAdoptionApplicationByID, hid, hcg,
          mongoGetAdoptionApplicationByID, hfdb, hfind]
      | missNotFound =>
        simp [GetAdoptionApplicationByID, hid, hcg,
          mongoGetAdoptionApplicationByID, hfdb, hfind]
      | failure msg =>
        simp [GetAdoptionApplicationByID, hid, hcg,
          mongoGetAdoptionApplicationByID, hfdb, hfind]
  · intro env r applicationID e
    rfl

/-- C2 witness: a cache hit is served from the cache alone. -/
theorem get_cache_aside_witness :
    (GetAdoptionApplicationByID envHit repo1 "app1").res = .ok appStored ∧
    (GetAdoptionApplicationByID envHit repo1 "app1").trace =
      [Effect.cacheGet "app1"] :=
  get_cache_aside.1 envHit repo1 "app1" appStored (by decide) rfl

/-- C3: a status update whose id matches no stored document (and whose
other inputs are well-formed) fails with the wrapped repository not-found
error, and its trace holds only the store update attempt — no publish and
no cache invalidation — while the store is left unchanged. -/
theorem update_status_not_found :
    ∀ env r applicationID reqData,
      applicationID ≠ "" →
      IsValidApplicationStatus reqData.newStatus = true →
      env.updateDbError = none →
      r.findByID applicationID = none →
      (UpdateAdoptionApplicationStatus env r applicationID reqData).res =
        .error "could not update application status: adoption application not found for status update" ∧
      (UpdateAdoptionApplicationStatus env r applicationID reqData).trace =
        [Effect.repoUpdateOne applicationID reqData.newStatus reqData.reviewNotes] ∧
      (UpdateAdoptionApplicationStatus env r applicationID reqData).repo = r := by
  intro env r applicationID reqData hid hval hdb hfind
  refine ⟨?_, ?_, ?_⟩ <;>
    simp [UpdateAdoptionApplicationStatus, hid, hval,
      mongoUpdateAdoptionApplicationStatus, hdb, hfind]

/-- C3 witness: updating the id `missing` in an empty collection fails as
not found with no publish and no cache delete. -/
theorem update_status_not_found_witness :
    (UpdateAdoptionApplicationStatus envOk repo0 "missing"
        { newStatus := "APPROVED", reviewNotes := "n" }).res =
      .error "could not update application status: adoption application not found for status update" ∧
    (UpdateAdoptionApplicationStatus envOk repo0 "missing"
        { newStatus := "APPROVED", reviewNotes := "n" }).trace =
      [Effect.repoUpdateOne "missing" "APPROVED" "n"] ∧
    (UpdateAdoptionApplicationStatus envOk repo0 "missing"
        { newStatus := "APPROVED", reviewNotes := "n" }).repo = repo0 :=
  update_status_not_found envOk repo0 "missing"
    { newStatus := "APPROVED", reviewNotes := "n" }
    (by decide) (by decide) rfl rfl

/-- C5 counterexample: passing the `UNSPECIFIED` sentinel as the new status
is not rejected — the call succeeds, the store write happens, and the
stored application now carries status `UNSPECIFIED`. -/
theorem update_status_unspecified_counterexample :
    (UpdateAdoptionApplicationStatus envOk repo1 "app1"
        { newStatus := "UNSPECIFIED", reviewNotes := "" }).res =
      .ok { appStored with status := "UNSPECIFIED", reviewNotes := "", updatedAt := 7 } ∧
    Effect.repoUpdateOne "app1" "UNSPECIFIED" "" ∈
      (UpdateAdoptionApplicationStatus envOk repo1 "app1"
        { newStatus := "UNSPECIFIED", reviewNotes := "" }).trace ∧
    (UpdateAdoptionApplicationStatus envOk repo1 "app1"
        { newStatus := "UNSPECIFIED", reviewNotes := "" }).repo.findByID "app1" =
      some { appStored with status := "UNSPECIFIED", reviewNotes := "", updatedAt := 7 } := by
  decide

/-- C5 (amended): `UpdateAdoptionApplicationStatus` rejects with the
invalid-status error — performing no store write — exactly those statuses
outside the five-element set accepted by `IsValidApplicationStatus`
(the four business values plus the `UNSPECIFIED` sentinel); `UNSPECIFIED`
itself is accepted as input and written to the store. -/
theorem update_status_validation_amended :
    ∀ env r applicationID reqData,
      applicationID ≠ "" →
      (IsValidApplicationStatus reqData.newStatus = false →
        (UpdateAdoptionApplicationStatus env r applicationID reqData).res =
          .error "invalid new application status" ∧
        (UpdateAdoptionApplicationStatus env r applicationID reqData).trace = [] ∧
        (UpdateAdoptionApplicationStatus env r applicationID reqData).repo = r) ∧
      (IsValidApplicationStatus reqData.newStatus = true ↔
        reqData.newStatus = StatusAppPendingReview ∨
        reqData.newStatus = StatusAppApproved ∨
        reqData.newStatus = StatusAppRejected ∨
        reqData.newStatus = StatusAppCancelledByUser ∨
        reqData.newStatus = StatusAppUnspecified) ∧
      (reqData.newStatus = StatusAppUnspecified →
        env.updateDbError = none → env.findDbError = none →
        ∀ d, r.findByID applicationID = some d →
          (UpdateAdoptionApplicationStatus env r applicationID reqData).res =
            .ok { d with
                  status := StatusAppUnspecified
                  reviewNotes := reqData.reviewNotes
                  updatedAt := env.now }) := by
  intro env r applicationID reqData hid
  refine ⟨?_, ?_, ?_⟩
  · intro hval
    refine ⟨?_, ?_, ?_⟩ <;>
      simp [UpdateAdoptionApplicationStatus, hid, hval]
  · simp only [IsValidApplicationStatus, StatusAppPendingReview, StatusAppApproved,
      StatusAppRejected, StatusAppCancelledByUser, StatusAppUnspecified,
      Bool.or_eq_true, beq_iff_eq]
    tauto
  · intro hns hdb hfdb d hfind
    have hval : IsValidApplicationStatus reqData.newStatus = true := by
      simp [IsValidApplicationStatus, hns, StatusAppUnspecified]
    rw [update_ok_eq env r applicationID reqData d hid hval hdb hfdb hfind]
    simp [updatedOf, hns]

/-- C5 amended witness: the status `BOGUS` is rejected with the
invalid-status error and no store write. -/
theorem update_status_validation_amended_witness :
    (UpdateAdoptionApplicationStatus envOk repo1 "app1"
        { newStatus := "BOGUS", reviewNotes := "" }).res =
      .error "invalid new application status" ∧
    (UpdateAdoptionApplicationStatus envOk repo1 "app1"
        { newStatus := "BOGUS", reviewNotes := "" }).trace = [] ∧
    (UpdateAdoptionApplicationStatus envOk repo1 "app1"
        { newStatus := "BOGUS", reviewNotes := "" }).repo = repo1 :=
  (update_status_validation_amended envOk repo1 "app1"
    { newStatus := "BOGUS", reviewNotes := "" } (by decide)).1 (by decide)

/-- C6 counterexample: a status update carrying empty review notes does not
preserve the stored `review_notes` — the field is overwritten with the
empty string (`"old notes"` is lost). -/
theorem update_overwrites_review_notes_counterexample :
    appStored.reviewNotes = "old notes" ∧
    repo1.findByID "app1" = some appStored ∧
    (UpdateAdoptionApplicationStatus envOk repo1 "app1"
        { newStatus := "APPROVED", reviewNotes := "" }).res =
      .ok { appStored with status := "APPROVED", reviewNotes := "", updatedAt := 7 } ∧
    (UpdateAdoptionApplicationStatus envOk repo1 "app1"
        { newStatus := "APPROVED", reviewNotes := "" }).repo.findByID "app1" =
      some { appStored with status := "APPROVED", reviewNotes := "", updatedAt := 7 } := by
  decide

/-- C6 (amended): the status-update write applies the new status, the
request's review notes (unconditionally — an empty request value overwrites
the stored notes) and the `updated_at` stamp; every other stored field of
the matched application (id, user id, pet id, application notes,
created-at) retains its prior value. -/
theorem update_status_frame_amended :
    ∀ env r applicationID reqData d,
      applicationID ≠ "" →
      IsValidApplicationStatus reqData.newStatus = true →
      env.updateDbError = none → env.findDbError = none →
      r.findByID applicationID = some d →
      (UpdateAdoptionApplicationStatus env r applicationID reqData).res =
        .ok { d with
              status := reqData.newStatus
              reviewNotes := reqData.reviewNotes
              updatedAt := env.now } ∧
      (UpdateAdoptionApplicationStatus env r applicationID reqData).repo.findByID
          applicationID =
        some { d with
               status := reqData.newStatus
               reviewNotes := reqData.reviewNotes
               updatedAt := env.now } := by
  intro env r applicationID reqData d hid hval hdb hfdb hfind
  rw [update_ok_eq env r applicationID reqData d hid hval hdb hfdb hfind]
  constructor
  · simp [updatedOf]
  · simpa [MongoRepo.findByID, updatedOf] using
      findDoc_updateFirstByID r.docs applicationID reqData.newStatus
        reqData.reviewNotes env.now d (by simpa [MongoRepo.findByID] using hfind)

/-- C6 amended witness: updating `app1` to `APPROVED` with notes `n2`
rewrites status, review notes and the update stamp and keeps all other
fields. -/
theorem update_status_frame_amended_witness :
    (UpdateAdoptionApplicationStatus envOk repo1 "app1"
        { newStatus := "APPROVED", reviewNotes := "n2" }).res =
      .ok { appStored with status := "APPROVED", reviewNotes := "n2", updatedAt := 7 } ∧
    (UpdateAdoptionApplicationStatus envOk repo1 "app1"
        { newStatus := "APPROVED", reviewNotes := "n2" }).repo.findByID "app1" =
      some { appStored with status := "APPROVED", reviewNotes := "n2", updatedAt := 7 } :=
  update_status_frame_amended envOk repo1 "app1"
    { newStatus := "APPROVED", reviewNotes := "n2" } appStored
    (by decide) (by decide) rfl rfl (by decide)

/-- C8: both notification handlers return an error and send nothing when
the user fetch fails or yields an empty email, or the pet fetch fails or
yields an empty name; when both enrichment fetches succeed with non-empty
required fields, exactly one email send is attempted, addressed to the
fetched user's email. -/
theorem notification_enrichment_guards :
    (∀ env event,
        (enrichmentOk env = false →
          exceptIsError (HandleAdoptionApplicationCreated env event).1 = true ∧
          (HandleAdoptionApplicationCreated env event).2 = []) ∧
        (∀ u, env.userFetch = .ok u → enrichmentOk env = true →
          (HandleAdoptionApplicationCreated env event).2.map
            (fun s => s.recipients) = [[u.email]])) ∧
    (∀ env event,
        (enrichmentOk env = false →
          exceptIsError (HandleAdoptionApplicationStatusUpdated env event).1 = true ∧
          (HandleAdoptionApplicationStatusUpdated env event).2 = []) ∧
        (∀ u, env.userFetch = .ok u → enrichmentOk env = true →
          (HandleAdoptionApplicationStatusUpdated env event).2.map
            (fun s => s.recipients) = [[u.email]])) := by
  constructor
  · intro env event
    constructor
    · intro hbad
      cases hu : env.userFetch with
      | fail e => simp [HandleAdoptionApplicationCreated, hu, exceptIsError]
      | okNil => simp [HandleAdoptionApplicationCreated, hu, exceptIsError]
      | ok u =>
        by_cases he : u.email = ""
        · simp [HandleAdoptionApplicationCreated, hu, he, exceptIsError]
        · cases hp : env.petFetch with
          | fail e =>
            simp [HandleAdoptionApplicationCreated, hu, he, hp, exceptIsError]
          | okNil =>
            simp [HandleAdoptionApplicationCreated, hu, he, hp, exceptIsError]
          | ok p =>
            by_cases hn : p.name = ""
            · simp [HandleAdoptionApplicationCreated, hu, he, hp, hn, exceptIsError]
            · exfalso
              simp [enrichmentOk, hu, hp, he, hn] at hbad
    · intro u hu hok
      cases hp : env.petFetch with
      | fail e => simp [enrichmentOk, hu, hp] at hok
      | okNil => simp [enrichmentOk, hu, hp] at hok
      | ok p =>
        simp [enrichmentOk, hu, hp] at hok
        obtain ⟨he, hn⟩ := hok
        cases hs : env.sendError with
        | some e => simp [HandleAdoptionApplicationCreated, hu, he, hp, hn, hs]
        | none => simp [HandleAdoptionApplicationCreated, hu, he, hp, hn, hs]
  · intro env event
    constructor
    · intro hbad
      cases hu : env.userFetch with
      | fail e => simp [HandleAdoptionApplicationStatusUpdated, hu, exceptIsError]
      | okNil => simp [HandleAdoptionApplicationStatusUpdated, hu, exceptIsError]
      | ok u =>
        by_cases he : u.email = ""
        · simp [HandleAdoptionApplicationStatusUpdated, hu, he, exceptIsError]
        · cases hp : env.petFetch with
          | fail e =>
            simp [HandleAdoptionApplicationStatusUpdated, hu, he, hp, exceptIsError]
          | okNil =>
            simp [HandleAdoptionApplicationStatusUpdated, hu, he, hp, exceptIsError]
          | ok p =>
            by_cases hn : p.name = ""
            · simp [HandleAdoptionApplicationStatusUpdated, hu, he, hp, hn,
                exceptIsError]
            · exfalso
              simp [enrichmentOk, hu, hp, he, hn] at hbad
    · intro u hu hok
      cases hp : env.petFetch with
      | fail e => simp [enrichmentOk, hu, hp] at hok
      | okNil => simp [enrichmentOk, hu, hp] at hok
      | ok p =>
        simp [enrichmentOk, hu, hp] at hok
        obtain ⟨he, hn⟩ := hok
        cases hs : env.sendError with
        | some e => simp [HandleAdoptionApplicationStatusUpdated, hu, he, hp, hn, hs]
        | none => simp [HandleAdoptionApplicationStatusUpdated, hu, he, hp, hn, hs]

/-- C8 witness: with both fetches succeeding, the created handler sends
exactly one email to the fetched user's address. -/
theorem notification_enrichment_guards_witness :
    (HandleAdoptionApplicationCreated notifEnvOk eventCreated0).2.map
      (fun s => s.recipients) = [["alice@example.com"]] :=
  (notification_enrichment_guards.1 notifEnvOk eventCreated0).2
    { email := "alice@example.com", fullName := "Alice" } rfl (by decide)

/-- C9 counterexample: in the consumer shutdown sequence the NATS
connection is drained — and thereby released — strictly before the bounded
wait for in-flight handlers, so the wait does not precede the release. -/
theorem consumer_close_drain_before_wait_counterexample :
    CloseAction.drainConnection ∈ NATSConsumerClose consumerSubjects true ∧
    firstIndexOf (NATSConsumerClose consumerSubjects true)
        CloseAction.drainConnection <
      firstIndexOf (NATSConsumerClose consumerSubjects true)
        (CloseAction.waitForHandlers 10) := by
  constructor
  · simp [NATSConsumerClose, consumerSubjects]
  · decide

/-- C9 (amended): consumer shutdown signals stop, unsubscribes from both
subjects, then drains (releasing) the bus connection, and only then waits —
bounded by a 10-second timeout — for in-flight handlers to finish. -/
theorem consumer_close_order_amended :
    NATSConsumerClose consumerSubjects true =
      [CloseAction.signalStop,
       CloseAction.unsubscribe "adoption.application.created",
       CloseAction.unsubscribe "adoption.application.status.updated",
       CloseAction.drainConnection,
       CloseAction.waitForHandlers 10] ∧
    firstIndexOf (NATSConsumerClose consumerSubjects true)
        (CloseAction.unsubscribe "adoption.application.status.updated") <
      firstIndexOf (NATSConsumerClose consumerSubjects true)
        CloseAction.drainConnection := by
  decide

end Petstore
